import Mathlib

/-
Verification of the MOF-Advisor-API core against its design document.

The development shallowly embeds the algorithmic core of the repository:
  * the JSON value model shared by all components (Python values as produced
    by json.loads, together with Python truthiness and str()/repr()),
  * robust_json_loads            (src/app/core/ingestion_service.py,
                                  src/celery_worker.py, src/scripts/ingest_data.py),
  * flatten_metadata             (same three files; the script variant differs
                                  in its boolean handling and is embedded separately),
  * the two-stage extraction loop of IngestionService.process_and_store_paper
    and of the worker task process_paper_task, with the LLM completion calls
    and the vector store abstracted as oracles / explicit state,
  * the processed-file log update of scripts/ingest_data.py main,
  * RAGService._check_feasibility, _generate_synthesis_protocol and
    query_synthesis_method, with external calls abstracted as oracles and
    the externally visible calls recorded as an event trace.

External libraries (json.loads, codecs.decode, the OpenAI client, ChromaDB,
the embedding model) are not repository code; they enter the model as
parameters or oracle inputs.  Raised exceptions are modelled with Except /
Option; a caught-and-logged exception is recorded explicitly where the
handler's behaviour is observable.
-/

set_option autoImplicit false

namespace MOFAdvisor

/-- The single-quote character, used when building Python message strings. -/
def sq : String := (Char.ofNat 39).toString

/-- A Python value as produced by json.loads: None, bool, int, str, list, dict.
Floats do not occur in any code path modelled here.  Dicts are association
lists; values produced by json.loads have unique keys, and the flattening
code below maintains uniqueness through dictInsert. -/
inductive PyVal where
  | none : PyVal
  | bool (b : Bool) : PyVal
  | int (n : Int) : PyVal
  | str (s : String) : PyVal
  | list (xs : List PyVal) : PyVal
  | dict (kvs : List (String × PyVal)) : PyVal

/-- Python truthiness: bool(v) for the values modelled here. -/
def pyTruthy : PyVal → Bool
  | .none => false
  | .bool b => b
  | .int n => n != 0
  | .str s => s ≠ ""
  | .list xs => !xs.isEmpty
  | .dict kvs => !kvs.isEmpty

/-- Truthiness of an optional value (None for Option.none), matching a
Python variable that is either None or a parsed JSON value. -/
def pyTruthyOpt : Option PyVal → Bool
  | Option.none => false
  | some v => pyTruthy v

mutual

/-- Python repr() of a value.  String escaping inside repr is not modelled
(no claim evaluates repr on a string containing quotes or escapes). -/
def pyRepr : PyVal → String
  | .none => "None"
  | .bool true => "True"
  | .bool false => "False"
  | .int n => toString n
  | .str s => sq ++ s ++ sq
  | .list xs => "[" ++ pyReprList xs ++ "]"
  | .dict kvs => "\x7b" ++ pyReprDict kvs ++ "\x7d"

/-- Comma-separated reprs of the elements of a list. -/
def pyReprList : List PyVal → String
  | [] => ""
  | [x] => pyRepr x
  | x :: y :: xs => pyRepr x ++ ", " ++ pyReprList (y :: xs)

/-- Comma-separated key: value reprs of the entries of a dict. -/
def pyReprDict : List (String × PyVal) → String
  | [] => ""
  | [(k, v)] => sq ++ k ++ sq ++ ": " ++ pyRepr v
  | (k, v) :: e :: kvs => sq ++ k ++ sq ++ ": " ++ pyRepr v ++ ", " ++ pyReprDict (e :: kvs)

end

/-- Python str() of a value: identity on strings, repr-like otherwise. -/
def pyStr (v : PyVal) : String :=
  match v with
  | .str s => s
  | _ => pyRepr v

/-- Python dict.get(key, default): first binding of the key, or the default.
Keys are unique in every dict the modelled code builds or parses. -/
def dictGetD (kvs : List (String × PyVal)) (key : String) (dflt : PyVal) : PyVal :=
  match kvs.lookup key with
  | some v => v
  | Option.none => dflt

/-- Python dict assignment d[k] = v: replace the binding if the key is
present, otherwise append it, preserving insertion order. -/
def dictInsert (d : List (String × PyVal)) (k : String) (v : PyVal) : List (String × PyVal) :=
  if d.any (fun p => p.1 = k) then
    d.map (fun p => if p.1 = k then (k, v) else p)
  else
    d ++ [(k, v)]

/-- The ", ".join(map(str, value or [])) expression used for list values in
flatten_metadata: the empty list and a non-empty list join identically, so
the `or []` guard is the identity here. -/
def joinPyStr (xs : List PyVal) : String :=
  String.intercalate ", " (xs.map pyStr)

/-- Inner loop of flatten_metadata over a nested value.items(): the
assignments flat_meta[key_subkey] = sub_value, in item order. -/
def insertSubs : List (String × PyVal) → String → List (String × PyVal) → List (String × PyVal)
  | acc, _, [] => acc
  | acc, k, (sk, sv) :: kvs => insertSubs (dictInsert acc (k ++ "_" ++ sk) sv) k kvs

/-- First loop of flatten_metadata (identical in ingestion_service.py,
celery_worker.py and ingest_data.py): inline dict values under key_subkey,
join list values with ", ", copy every other value, building the result
dict by Python assignment.  acc is the flat_meta dict built so far. -/
def flattenPassAux : List (String × PyVal) → List (String × PyVal) → List (String × PyVal)
  | acc, [] => acc
  | acc, (k, v) :: rest =>
    match v with
    | .dict kvs => flattenPassAux (insertSubs acc k kvs) rest
    | .list xs => flattenPassAux (dictInsert acc k (.str (joinPyStr xs))) rest
    | _ => flattenPassAux (dictInsert acc k v) rest

/-- flat_meta as computed by the first loop of flatten_metadata. -/
def flattenPass (data : List (String × PyVal)) : List (String × PyVal) :=
  flattenPassAux [] data

/-- Per-value sanitization of the second loop of flatten_metadata in
ingestion_service.py / celery_worker.py: None to "None", bools to str(bool),
str/int(/float) kept, anything else to str(value). -/
def sanitizeVal : PyVal → PyVal
  | .none => .str "None"
  | .bool b => .str (pyStr (.bool b))
  | .str s => .str s
  | .int n => .int n
  | v => .str (pyStr v)

/-- Per-value sanitization of the second loop of flatten_metadata in
scripts/ingest_data.py: None to "None", str/int/float/bool kept unchanged
(booleans are NOT stringified in this variant), anything else to str(value). -/
def sanitizeValScript : PyVal → PyVal
  | .none => .str "None"
  | .bool b => .bool b
  | .str s => .str s
  | .int n => .int n
  | v => .str (pyStr v)

/-- Second loop of flatten_metadata: rebuild the dict with sanitized values
by Python assignment, with f the per-value sanitization. -/
def sanitizePass (f : PyVal → PyVal) : List (String × PyVal) → List (String × PyVal) → List (String × PyVal)
  | acc, [] => acc
  | acc, (k, v) :: rest => sanitizePass f (dictInsert acc k (f v)) rest

/-- flatten_metadata of src/app/core/ingestion_service.py lines 38-64 and
src/celery_worker.py lines 52-73 (the two are textually equivalent). -/
def flatten_metadata (data : List (String × PyVal)) : List (String × PyVal) :=
  sanitizePass sanitizeVal [] (flattenPass data)

/-- flatten_metadata of src/scripts/ingest_data.py lines 111-144: same
flattening loop, but the sanitize step keeps booleans unchanged. -/
def flatten_metadata_script (data : List (String × PyVal)) : List (String × PyVal) :=
  sanitizePass sanitizeValScript [] (flattenPass data)

/-- A value already of a type the service sanitizer leaves unchanged. -/
def isSanitizedVal : PyVal → Bool
  | .str _ => true
  | .int _ => true
  | _ => false

/-- A value already of a type the script sanitizer leaves unchanged. -/
def isSanitizedValScript : PyVal → Bool
  | .str _ => true
  | .int _ => true
  | .bool _ => true
  | _ => false

example : flatten_metadata
    [("metal_source", .dict [("formula", .str "Cu(NO3)2"), ("molar_amount", .none)]),
     ("solvent", .list [.str "DMF", .str "H2O"]),
     ("yield", .none)]
    = [("metal_source_formula", .str "Cu(NO3)2"),
       ("metal_source_molar_amount", .str "None"),
       ("solvent", .str "DMF, H2O"),
       ("yield", .str "None")] := rfl

/-! ## The JSON repair parser

robust_json_loads appears textually three times (ingestion_service.py 20-36,
celery_worker.py 39-50, ingest_data.py 26-53) with identical control flow.
json.loads and codecs.decode(-, "unicode_escape") are library calls, so the
embedding takes them as parameters: parse returns the parsed value or the
JSONDecodeError message; repair returns the repaired string or the message
of the exception codecs.decode raised.  The body of the second try block
covers both the repair and the re-parse, exactly as in the source. -/

/-- One attempted call to a library function, recorded for trace claims. -/
inductive ParseEvent where
  | parseAttempt (s : String) : ParseEvent
  | repairAttempt (s : String) : ParseEvent
deriving DecidableEq

/-- robust_json_loads together with the trace of json.loads / codecs.decode
invocations it performs, in order. -/
def robust_json_loads_tr (parse : String → Except String PyVal)
    (repair : String → Except String String) (s : String) :
    Option PyVal × List ParseEvent :=
  match parse s with
  | .ok v => (some v, [.parseAttempt s])
  | .error _ =>
    match repair s with
    | .error _ => (Option.none, [.parseAttempt s, .repairAttempt s])
    | .ok r =>
      match parse r with
      | .ok v => (some v, [.parseAttempt s, .repairAttempt s, .parseAttempt r])
      | .error _ => (Option.none, [.parseAttempt s, .repairAttempt s, .parseAttempt r])

/-- robust_json_loads: the value the Python function returns (None on
double failure, modelled as Option.none). -/
def robust_json_loads (parse : String → Except String PyVal)
    (repair : String → Except String String) (s : String) : Option PyVal :=
  (robust_json_loads_tr parse repair s).1

/-- Number of json.loads attempts in a trace. -/
def countParseAttempts (evs : List ParseEvent) : Nat :=
  (evs.filter (fun e => match e with | .parseAttempt _ => true | _ => false)).length

/-! ## The two-stage extraction loop

The Stage-1 and Stage-2 LLM calls are modelled as oracles giving, for the
document (Stage 1) and for each candidate index (Stage 2), the combined
outcome of the completion call and robust_json_loads on its content:
Except.error e  = the client call raised e (network error etc.);
Except.ok none  = the call succeeded but robust_json_loads returned None;
Except.ok (some v) = the call succeeded and parsed to v.
The embedding computation and collection.add are modelled as always
succeeding; a stored entry records the id and flattened metadata actually
passed to collection.add (document text and embedding vector carry no
claim-relevant information). -/

/-- One entry written to the vector store by collection.add. -/
structure StoredEntry where
  id : String
  metadata : List (String × PyVal)

/-- Default mof_name in the API service loop: f"synthesis_{i+1}". -/
def defaultNameService (i : Nat) : String := "synthesis_" ++ toString (i + 1)

/-- Default mof_name in the worker loop: f"s_{i+1}". -/
def defaultNameWorker (i : Nat) : String := "s_" ++ toString (i + 1)

/-- Python str.replace for a single-character pattern and replacement (the
only form the code uses: " " to "_" and "/" to "_"), i.e. per-character
substitution.  old and new are given as character codes. -/
def strReplaceChar (s : String) (old new : Nat) : String :=
  String.mk (s.data.map (fun c => if c = Char.ofNat old then Char.ofNat new else c))

/-- unique_id built by the API service: filename_mofname with spaces
(code 32) replaced by underscores (code 95). -/
def mkUidService (filename name : String) : String :=
  filename ++ "_" ++ strReplaceChar name 32 95

/-- unique_id built by the worker: additionally replaces slashes (47). -/
def mkUidWorker (filename name : String) : String :=
  filename ++ "_" ++ strReplaceChar (strReplaceChar name 32 95) 47 95

/-- The Stage-2 per-candidate loop shared by ingestion_service.py 122-160
and celery_worker.py 157-196 (they differ only in the default-name and
unique-id builders, passed here as defName and mkUid).  Returns the entries
added to the collection in order, and the message of the exception that
escaped the loop, if any; an escaping exception aborts the remaining
candidates (it is handled only by the per-document handler outside the
loop).  A candidate is skipped (continue) when its experimental_text is
falsy or when the parsed Stage-2 value is falsy (None from a parse failure,
or a falsy JSON value such as an empty object). -/
def processSyntheses (defName : Nat → String) (mkUid : String → String)
    (ext : Nat → Except String (Option PyVal)) :
    Nat → List PyVal → List StoredEntry × Option String
  | _, [] => ([], Option.none)
  | i, c :: rest =>
    match c with
    | .dict kvs =>
      let mofNameVal := dictGetD kvs "mof_name" (.str (defName i))
      let expText := dictGetD kvs "experimental_text" PyVal.none
      if pyTruthy expText = false then
        -- if not exp_text: continue
        processSyntheses defName mkUid ext (i + 1) rest
      else
        match mofNameVal with
        | .str name =>
          -- unique_id = f"{filename}_{mof_name.replace(...)}", before the call
          let uid := mkUid name
          match ext i with
          | .error e => ([], some e)  -- the completion call raised: escapes the loop
          | .ok r =>
            if pyTruthyOpt r = false then
              -- if not structured_data: continue
              processSyntheses defName mkUid ext (i + 1) rest
            else
              match r with
              | some (.dict sdkvs) =>
                -- structured_data["mof_name"] = mof_name; flatten; collection.add
                let sd := dictInsert sdkvs "mof_name" (.str name)
                let res := processSyntheses defName mkUid ext (i + 1) rest
                (⟨uid, flatten_metadata sd⟩ :: res.1, res.2)
              | _ =>
                -- item assignment on a truthy non-dict raises TypeError
                ([], some "TypeError: structured_data does not support item assignment")
        | _ =>
          -- mof_name.replace on a non-string raises AttributeError
          ([], some "AttributeError: mof_name has no attribute replace")
    | _ =>
      -- synthesis_info.get on a non-dict raises AttributeError
      ([], some "AttributeError: synthesis candidate is not an object")

/-- Result of IngestionService.process_and_store_paper.  The Python method
returns successful_entries (here stored.length) on every path; caught is
the message of the exception the per-document handler at lines 162-164
caught and logged, if that handler ran. -/
structure ServiceRun where
  stored : List StoredEntry
  caught : Option String

/-- IngestionService.process_and_store_paper (ingestion_service.py 93-166)
over the Stage-1 oracle idOutcome and the Stage-2 oracle ext.  A Stage-1
parse failure raises ValueError (line 112); any exception lands in the
per-document handler, which swallows it after logging. -/
def process_and_store_paper (filename : String)
    (idOutcome : Except String (Option PyVal))
    (ext : Nat → Except String (Option PyVal)) : ServiceRun :=
  match idOutcome with
  | .error e => ⟨[], some e⟩
  | .ok r =>
    if pyTruthyOpt r = false then
      -- if not parsed_id_response: raise ValueError(...)
      ⟨[], some "Failed to parse the Stage 1 (identification) response from LLM."⟩
    else
      match r with
      | some (.dict kvs) =>
        let sl := dictGetD kvs "syntheses" (.list [])
        if pyTruthy sl = false then
          -- no procedures found: return 0, no exception
          ⟨[], Option.none⟩
        else
          match sl with
          | .list cs =>
            let res := processSyntheses defaultNameService (mkUidService filename) ext 0 cs
            ⟨res.1, res.2⟩
          | _ => ⟨[], some "TypeError: syntheses value is not iterable as a list"⟩
      | _ =>
        -- .get on a truthy non-dict raises AttributeError
        ⟨[], some "AttributeError: parsed Stage 1 response is not an object"⟩

/-- Result of the worker task process_paper_task: the processed-file log
after the run, the entries added to the collection (adds persist even when
the task later fails), and the outcome (returned message, or the exception
the task re-raises from its handler at lines 207-210). -/
structure WorkerRun where
  log : List String
  stored : List StoredEntry
  outcome : Except String String

/-- process_paper_task (celery_worker.py 115-210) over the same oracles,
starting from processed-file log contents log.  Stage 1 reads
(robust_json_loads(...) or \x7b\x7d).get("syntheses", []), so a parse failure or a
falsy parsed value collapses to the empty dict; after the candidate loop the
filename is appended to the log whether or not any entry was stored. -/
def process_paper_task (filename : String)
    (idOutcome : Except String (Option PyVal))
    (ext : Nat → Except String (Option PyVal))
    (log : List String) : WorkerRun :=
  match idOutcome with
  | .error e => ⟨log, [], .error e⟩
  | .ok r =>
    let parsed : PyVal :=
      match r with
      | some v => if pyTruthy v then v else .dict []
      | Option.none => .dict []
    match parsed with
    | .dict kvs =>
      let sl := dictGetD kvs "syntheses" (.list [])
      if pyTruthy sl = false then
        ⟨log, [], .ok ("No syntheses found in " ++ sq ++ filename ++ sq ++ ".")⟩
      else
        match sl with
        | .list cs =>
          match processSyntheses defaultNameWorker (mkUidWorker filename) ext 0 cs with
          | (es, some e) => ⟨log, es, .error e⟩
          | (es, Option.none) =>
            ⟨log ++ [filename], es,
             .ok ("Successfully processed " ++ sq ++ filename ++ sq ++ ", added "
                  ++ toString es.length ++ " new entries.")⟩
        | _ => ⟨log, [], .error "TypeError: syntheses value is not iterable as a list"⟩
    | _ =>
      -- a truthy non-dict parse result has no .get: AttributeError re-raised
      ⟨log, [], .error "AttributeError: parsed Stage 1 response is not an object"⟩

/-- The processed-file log update of scripts/ingest_data.py main
(lines 272-275): the filename is appended only when the paper produced at
least one new entry. -/
def scriptLogUpdate (log : List String) (filename : String) (new_entries : Nat) : List String :=
  if new_entries > 0 then log ++ [filename] else log

/-! ## The RAG service

The feasibility check, retrieval and generation are modelled over oracles:
feasResp is the combined outcome of the completion call and json.loads in
_check_feasibility (error = either raised); documents/metadatas are the two
parallel lists the collection query returned; genResp is the combined
outcome of the generation call and json.loads.  Every externally visible
call of the query path is recorded as an event. -/

/-- Externally visible calls made while answering a query. -/
inductive RagEvent where
  | feasibilityCall : RagEvent  -- the feasibility-check completion round trip
  | embedCall : RagEvent        -- embedding_model.encode on the query text
  | retrieveCall : RagEvent     -- collection.query on the vector store
  | generateCall : RagEvent     -- the generation completion round trip
deriving DecidableEq

/-- RAGService._check_feasibility (rag_service.py 54-88) over the outcome
of its completion call.  Returns the pair the Python method returns; any
exception inside the try block (a failed call, unparseable JSON, or .get on
a non-dict result) reaches the fail-open handler at lines 85-88. -/
def check_feasibility (feasResp : Except String PyVal) : PyVal × PyVal :=
  match feasResp with
  | .ok (.dict kvs) =>
    (dictGetD kvs "is_plausible" (.bool false),
     dictGetD kvs "reasoning" (.str "No reasoning provided."))
  | _ =>
    (.bool true, .str "Feasibility check failed, proceeding with caution.")

/-- The structured answer returned by the RAG service. -/
structure ProtocolAnswer where
  generation_mode : String
  suggestion : PyVal
  sources : List PyVal

/-- RAGService._generate_synthesis_protocol (rag_service.py 103-138): mode
and sources are chosen by the truthiness of the retrieved documents list;
the generation call is then made in either branch, and an exception from it
(or from json.loads, or .get on a non-dict) propagates to the caller. -/
def generate_synthesis_protocol (documents : List String) (metadatas : List PyVal)
    (genResp : Except String PyVal) : Except String ProtocolAnswer :=
  let mode_sources : String × List PyVal :=
    if documents.isEmpty then ("LLM_FALLBACK", []) else ("RAG_BASED", metadatas)
  match genResp with
  | .error e => .error e
  | .ok (.dict kvs) =>
    .ok ⟨mode_sources.1, dictGetD kvs "suggested_protocol" (.dict []), mode_sources.2⟩
  | .ok _ => .error "AttributeError: generation response is not an object"

/-- Typed failure of the query path: the ValueError raised for an
implausible request (mapped to HTTP 400 by the endpoint), versus any other
exception propagating out of protocol generation (mapped to HTTP 500). -/
inductive QueryError where
  | rejected (message : String) : QueryError
  | generation (message : String) : QueryError

/-- The external-call oracle for one query request. -/
structure RagOracle where
  feasResp : Except String PyVal
  documents : List String
  metadatas : List PyVal
  genResp : Except String PyVal

/-- RAGService.query_synthesis_method (rag_service.py 140-153) with its
trace of external calls: the feasibility gate runs first; an implausible
verdict raises ValueError with the gate reasoning before any embedding,
retrieval or generation call; otherwise gate 2 embeds, retrieves and calls
generation. -/
def query_synthesis_method (o : RagOracle) :
    Except QueryError ProtocolAnswer × List RagEvent :=
  let fr := check_feasibility o.feasResp
  if pyTruthy fr.1 then
    match generate_synthesis_protocol o.documents o.metadatas o.genResp with
    | .ok ans => (.ok ans, [.feasibilityCall, .embedCall, .retrieveCall, .generateCall])
    | .error e =>
      (.error (.generation e), [.feasibilityCall, .embedCall, .retrieveCall, .generateCall])
  else
    (.error (.rejected
        ("The request is considered chemically implausible. Reason: " ++ pyStr fr.2)),
     [.feasibilityCall])

/-! ## Dictionary and flattening lemmas -/

/-- The key list of an association-list dict. -/
def dictKeys (l : List (String × PyVal)) : List String := l.map Prod.fst

/-- A value that is neither a nested dict nor a list, i.e. one the first
flatten loop copies unchanged. -/
def noNest : PyVal → Bool
  | .dict _ => false
  | .list _ => false
  | _ => true

theorem dictInsert_of_not_mem {l : List (String × PyVal)} {k : String} (v : PyVal)
    (h : k ∉ dictKeys l) : dictInsert l k v = l ++ [(k, v)] := by
  unfold dictInsert
  rw [if_neg]
  simp only [List.any_eq_true, decide_eq_true_eq]
  rintro ⟨⟨k', v'⟩, hp, hk⟩
  exact h (hk ▸ List.mem_map_of_mem Prod.fst hp)

theorem dictKeys_dictInsert (l : List (String × PyVal)) (k : String) (v : PyVal) :
    dictKeys (dictInsert l k v) = if k ∈ dictKeys l then dictKeys l else dictKeys l ++ [k] := by
  by_cases h : k ∈ dictKeys l
  · rw [if_pos h]
    unfold dictInsert
    rw [if_pos]
    · simp only [dictKeys, List.map_map]
      apply List.map_congr_left
      rintro ⟨k', v'⟩ _
      by_cases hk : k' = k
      · simp [hk]
      · simp [Function.comp, hk]
    · simp only [List.any_eq_true, decide_eq_true_eq]
      rcases List.mem_map.1 h with ⟨p, hp, hk⟩
      exact ⟨p, hp, hk⟩
  · rw [if_neg h, dictInsert_of_not_mem v h]
    simp [dictKeys]

theorem dictKeys_dictInsert_nodup {l : List (String × PyVal)} {k : String} (v : PyVal)
    (h : (dictKeys l).Nodup) : (dictKeys (dictInsert l k v)).Nodup := by
  rw [dictKeys_dictInsert]
  by_cases hk : k ∈ dictKeys l
  · rwa [if_pos hk]
  · rw [if_neg hk, List.nodup_append]
    refine ⟨h, List.nodup_singleton k, ?_⟩
    intro a ha hak
    simp only [List.mem_singleton] at hak
    exact hk (hak ▸ ha)

theorem dictKeys_insertSubs_nodup (kvs : List (String × PyVal)) :
    ∀ (acc : List (String × PyVal)) (k : String), (dictKeys acc).Nodup →
      (dictKeys (insertSubs acc k kvs)).Nodup := by
  induction kvs with
  | nil => intro acc k h; exact h
  | cons p rest ih =>
    intro acc k h
    rw [show insertSubs acc k (p :: rest)
          = insertSubs (dictInsert acc (k ++ "_" ++ p.1) p.2) k rest from rfl]
    exact ih _ k (dictKeys_dictInsert_nodup _ h)

theorem dictKeys_flattenPassAux_nodup (data : List (String × PyVal)) :
    ∀ acc : List (String × PyVal), (dictKeys acc).Nodup →
      (dictKeys (flattenPassAux acc data)).Nodup := by
  induction data with
  | nil => intro acc h; exact h
  | cons p rest ih =>
    intro acc h
    rcases p with ⟨k, v⟩
    cases v with
    | dict kvs =>
      rw [show flattenPassAux acc ((k, PyVal.dict kvs) :: rest)
            = flattenPassAux (insertSubs acc k kvs) rest from rfl]
      exact ih _ (dictKeys_insertSubs_nodup kvs acc k h)
    | list xs => exact ih _ (dictKeys_dictInsert_nodup _ h)
    | none => exact ih _ (dictKeys_dictInsert_nodup _ h)
    | bool b => exact ih _ (dictKeys_dictInsert_nodup _ h)
    | int n => exact ih _ (dictKeys_dictInsert_nodup _ h)
    | str s => exact ih _ (dictKeys_dictInsert_nodup _ h)

theorem flattenPass_nodup (data : List (String × PyVal)) :
    (dictKeys (flattenPass data)).Nodup :=
  dictKeys_flattenPassAux_nodup data [] (by simp [dictKeys])

theorem sanitizePass_eq_append (f : PyVal → PyVal) (l : List (String × PyVal)) :
    ∀ acc : List (String × PyVal), (dictKeys l).Nodup →
      (∀ k ∈ dictKeys l, k ∉ dictKeys acc) →
      sanitizePass f acc l = acc ++ l.map (fun p => (p.1, f p.2)) := by
  induction l with
  | nil => intro acc _ _; simp [sanitizePass]
  | cons p rest ih =>
    intro acc hnd hdisj
    rcases p with ⟨k, v⟩
    rw [show sanitizePass f acc ((k, v) :: rest)
          = sanitizePass f (dictInsert acc k (f v)) rest from rfl]
    have hk : k ∉ dictKeys acc := hdisj k (List.mem_cons_self k _)
    rw [dictInsert_of_not_mem (f v) hk]
    have hnd2 : (k :: dictKeys rest).Nodup := hnd
    have hnd' : (dictKeys rest).Nodup := hnd2.of_cons
    have hknot : k ∉ dictKeys rest := (List.nodup_cons.1 hnd2).1
    have hdisj' : ∀ k' ∈ dictKeys rest, k' ∉ dictKeys (acc ++ [(k, f v)]) := by
      intro k' hk'
      have h1 : k' ∉ dictKeys acc := hdisj k' (List.mem_cons_of_mem k hk')
      have h2 : k' ≠ k := fun hkk => hknot (hkk ▸ hk')
      simp only [dictKeys, List.map_append, List.mem_append, List.map_cons, List.map_nil,
        List.mem_singleton]
      rintro (hc | hc)
      · exact h1 hc
      · exact h2 hc
    rw [ih _ hnd' hdisj']
    simp

theorem sanitizePass_eq_map (f : PyVal → PyVal) (l : List (String × PyVal))
    (hnd : (dictKeys l).Nodup) :
    sanitizePass f [] l = l.map (fun p => (p.1, f p.2)) := by
  simpa using sanitizePass_eq_append f l [] hnd (by simp [dictKeys])

theorem flattenPassAux_eq_append (l : List (String × PyVal)) :
    ∀ acc : List (String × PyVal), (∀ p ∈ l, noNest p.2 = true) →
      (dictKeys l).Nodup → (∀ k ∈ dictKeys l, k ∉ dictKeys acc) →
      flattenPassAux acc l = acc ++ l := by
  induction l with
  | nil => intro acc _ _ _; simp [flattenPassAux]
  | cons p rest ih =>
    intro acc hnn hnd hdisj
    rcases p with ⟨k, v⟩
    have hv : noNest v = true := hnn (k, v) (by simp)
    have hk : k ∉ dictKeys acc := hdisj k (List.mem_cons_self k _)
    have hnd2 : (k :: dictKeys rest).Nodup := hnd
    have hnd' : (dictKeys rest).Nodup := hnd2.of_cons
    have hknot : k ∉ dictKeys rest := (List.nodup_cons.1 hnd2).1
    have hdisj' : ∀ k' ∈ dictKeys rest, k' ∉ dictKeys (acc ++ [(k, v)]) := by
      intro k' hk'
      have h1 : k' ∉ dictKeys acc := hdisj k' (List.mem_cons_of_mem k hk')
      have h2 : k' ≠ k := fun hkk => hknot (hkk ▸ hk')
      simp only [dictKeys, List.map_append, List.mem_append, List.map_cons, List.map_nil,
        List.mem_singleton]
      rintro (hc | hc)
      · exact h1 hc
      · exact h2 hc
    have hnn' : ∀ p ∈ rest, noNest p.2 = true := fun p hp => hnn p (by simp [hp])
    cases v with
    | dict kvs => exact absurd hv (by simp [noNest])
    | list xs => exact absurd hv (by simp [noNest])
    | none =>
      rw [show flattenPassAux acc ((k, PyVal.none) :: rest)
            = flattenPassAux (dictInsert acc k PyVal.none) rest from rfl,
          dictInsert_of_not_mem _ hk, ih _ hnn' hnd' hdisj']
      simp
    | bool b =>
      rw [show flattenPassAux acc ((k, PyVal.bool b) :: rest)
            = flattenPassAux (dictInsert acc k (PyVal.bool b)) rest from rfl,
          dictInsert_of_not_mem _ hk, ih _ hnn' hnd' hdisj']
      simp
    | int n =>
      rw [show flattenPassAux acc ((k, PyVal.int n) :: rest)
            = flattenPassAux (dictInsert acc k (PyVal.int n)) rest from rfl,
          dictInsert_of_not_mem _ hk, ih _ hnn' hnd' hdisj']
      simp
    | str s =>
      rw [show flattenPassAux acc ((k, PyVal.str s) :: rest)
            = flattenPassAux (dictInsert acc k (PyVal.str s)) rest from rfl,
          dictInsert_of_not_mem _ hk, ih _ hnn' hnd' hdisj']
      simp

theorem sanitizeVal_noNest (v : PyVal) : noNest (sanitizeVal v) = true := by
  cases v <;> rfl

theorem sanitizeVal_idem (v : PyVal) : sanitizeVal (sanitizeVal v) = sanitizeVal v := by
  cases v <;> rfl

theorem sanitizeVal_sanitized (v : PyVal) : isSanitizedVal (sanitizeVal v) = true := by
  cases v <;> rfl

theorem sanitizeValScript_noNest (v : PyVal) : noNest (sanitizeValScript v) = true := by
  cases v <;> rfl

theorem sanitizeValScript_idem (v : PyVal) :
    sanitizeValScript (sanitizeValScript v) = sanitizeValScript v := by
  cases v <;> rfl

theorem sanitizeValScript_sanitized (v : PyVal) :
    isSanitizedValScript (sanitizeValScript v) = true := by
  cases v <;> rfl

/-- flatten with an arbitrary per-value sanitizer: both source variants are
instances of this shape. -/
def flattenWith (f : PyVal → PyVal) (data : List (String × PyVal)) : List (String × PyVal) :=
  sanitizePass f [] (flattenPass data)

theorem flatten_metadata_eq_flattenWith (data : List (String × PyVal)) :
    flatten_metadata data = flattenWith sanitizeVal data := rfl

theorem flatten_metadata_script_eq_flattenWith (data : List (String × PyVal)) :
    flatten_metadata_script data = flattenWith sanitizeValScript data := rfl

theorem flattenWith_eq_map (f : PyVal → PyVal) (data : List (String × PyVal)) :
    flattenWith f data = (flattenPass data).map (fun p => (p.1, f p.2)) :=
  sanitizePass_eq_map f _ (flattenPass_nodup data)

theorem flattenWith_nodup (f : PyVal → PyVal) (data : List (String × PyVal)) :
    (dictKeys (flattenWith f data)).Nodup := by
  rw [flattenWith_eq_map]
  have h := flattenPass_nodup data
  simpa [dictKeys, List.map_map, Function.comp] using h

theorem flattenWith_noNest (f : PyVal → PyVal) (hf : ∀ v, noNest (f v) = true)
    (data : List (String × PyVal)) : ∀ p ∈ flattenWith f data, noNest p.2 = true := by
  rw [flattenWith_eq_map]
  rintro ⟨k, v⟩ hp
  rcases List.mem_map.1 hp with ⟨q, _, hq⟩
  rcases q with ⟨k', v'⟩
  cases hq
  exact hf v'

theorem flattenWith_idem (f : PyVal → PyVal) (hnn : ∀ v, noNest (f v) = true)
    (hfix : ∀ v, f (f v) = f v) (data : List (String × PyVal)) :
    flattenWith f (flattenWith f data) = flattenWith f data := by
  have h1 : flattenPass (flattenWith f data) = flattenWith f data :=
    flattenPassAux_eq_append (flattenWith f data) []
      (flattenWith_noNest f hnn data) (flattenWith_nodup f data) (by simp [dictKeys])
  show sanitizePass f [] (flattenPass (flattenWith f data)) = flattenWith f data
  rw [h1, sanitizePass_eq_map f _ (flattenWith_nodup f data), flattenWith_eq_map]
  rw [List.map_map]
  apply List.map_congr_left
  rintro ⟨k, v⟩ _
  simp [Function.comp, hfix v]

theorem flatten_metadata_idem (data : List (String × PyVal)) :
    flatten_metadata (flatten_metadata data) = flatten_metadata data := by
  rw [flatten_metadata_eq_flattenWith, flatten_metadata_eq_flattenWith]
  exact flattenWith_idem sanitizeVal sanitizeVal_noNest sanitizeVal_idem data

theorem flatten_metadata_script_idem (data : List (String × PyVal)) :
    flatten_metadata_script (flatten_metadata_script data) = flatten_metadata_script data := by
  rw [flatten_metadata_script_eq_flattenWith, flatten_metadata_script_eq_flattenWith]
  exact flattenWith_idem sanitizeValScript sanitizeValScript_noNest sanitizeValScript_idem data

theorem flatten_metadata_total (data : List (String × PyVal)) :
    (flatten_metadata data).all (fun p => isSanitizedVal p.2) = true := by
  rw [flatten_metadata_eq_flattenWith, flattenWith_eq_map]
  simp only [List.all_eq_true]
  rintro ⟨k, v⟩ hp
  rcases List.mem_map.1 hp with ⟨⟨k', v'⟩, _, hq⟩
  cases hq
  exact sanitizeVal_sanitized v'

theorem flatten_metadata_script_total (data : List (String × PyVal)) :
    (flatten_metadata_script data).all (fun p => isSanitizedValScript p.2) = true := by
  rw [flatten_metadata_script_eq_flattenWith, flattenWith_eq_map]
  simp only [List.all_eq_true]
  rintro ⟨k, v⟩ hp
  rcases List.mem_map.1 hp with ⟨⟨k', v'⟩, _, hq⟩
  cases hq
  exact sanitizeValScript_sanitized v'

/-! ## One-step lemmas for the Stage-2 candidate loop -/

theorem processSyntheses_skip_empty_text
    (defName : Nat → String) (mkUid : String → String)
    (ext : Nat → Except String (Option PyVal)) (i : Nat)
    (kvs : List (String × PyVal)) (rest : List PyVal)
    (h : pyTruthy (dictGetD kvs "experimental_text" PyVal.none) = false) :
    processSyntheses defName mkUid ext i (.dict kvs :: rest)
      = processSyntheses defName mkUid ext (i + 1) rest := by
  simp only [processSyntheses, h]
  simp

theorem processSyntheses_skip_falsy
    (defName : Nat → String) (mkUid : String → String)
    (ext : Nat → Except String (Option PyVal)) (i : Nat)
    (kvs : List (String × PyVal)) (rest : List PyVal)
    (name : String) (r : Option PyVal)
    (hname : dictGetD kvs "mof_name" (.str (defName i)) = .str name)
    (htext : pyTruthy (dictGetD kvs "experimental_text" PyVal.none) = true)
    (hext : ext i = .ok r) (hr : pyTruthyOpt r = false) :
    processSyntheses defName mkUid ext i (.dict kvs :: rest)
      = processSyntheses defName mkUid ext (i + 1) rest := by
  simp only [processSyntheses, hname, htext, hext, hr]
  simp

theorem processSyntheses_abort
    (defName : Nat → String) (mkUid : String → String)
    (ext : Nat → Except String (Option PyVal)) (i : Nat)
    (kvs : List (String × PyVal)) (rest : List PyVal)
    (name : String) (e : String)
    (hname : dictGetD kvs "mof_name" (.str (defName i)) = .str name)
    (htext : pyTruthy (dictGetD kvs "experimental_text" PyVal.none) = true)
    (hext : ext i = .error e) :
    processSyntheses defName mkUid ext i (.dict kvs :: rest) = ([], some e) := by
  simp only [processSyntheses, hname, htext, hext]
  simp

/-! ## Claim theorems -/

/-- C1.  The worker task process_paper_task appends the filename to the
processed log even when the Stage-1 candidate list was non-empty but zero
Knowledge Entries were stored (here: the single candidate has empty
experimental_text, so it is skipped and the run stores nothing), returning
a success message reporting 0 new entries; the batch script main, by
contrast, appends only when at least one entry was stored.  This evaluates
the code at the claim's failing input. -/
theorem C1_worker_marks_document_with_zero_stored_entries :
    process_paper_task "doc.md"
        (.ok (some (.dict [("syntheses",
            .list [.dict [("mof_name", .str "MOF-5"), ("experimental_text", .str "")]])])))
        (fun _ => .ok Option.none) ["old.md"]
      = ⟨["old.md", "doc.md"], [],
         .ok ("Successfully processed " ++ sq ++ "doc.md" ++ sq ++ ", added 0 new entries.")⟩
    ∧ scriptLogUpdate ["old.md"] "doc.md" 0 = ["old.md"] :=
  ⟨rfl, rfl⟩

/-- C2 counterexample.  A Stage-2 completion-call failure on the first
candidate aborts the document: with two candidates where the call for
candidate 0 raises and the call for candidate 1 would succeed, the service
stores nothing (candidate 1 is never processed, the exception reaches the
per-document handler).  The second conjunct shows that under a mere parse
failure on candidate 0 the very same document does store candidate 1, so
the abort is attributable to the completion failure alone. -/
theorem C2_counterexample :
    process_and_store_paper "f.md"
        (.ok (some (.dict [("syntheses", .list
            [.dict [("mof_name", .str "A"), ("experimental_text", .str "tA")],
             .dict [("mof_name", .str "B"), ("experimental_text", .str "tB")]])])))
        (fun i => if i = 0 then .error "APIConnectionError"
                  else .ok (some (.dict [("synthesis_method", .str "Solvothermal")])))
      = ⟨[], some "APIConnectionError"⟩
    ∧ process_and_store_paper "f.md"
        (.ok (some (.dict [("syntheses", .list
            [.dict [("mof_name", .str "A"), ("experimental_text", .str "tA")],
             .dict [("mof_name", .str "B"), ("experimental_text", .str "tB")]])])))
        (fun i => if i = 0 then .ok Option.none
                  else .ok (some (.dict [("synthesis_method", .str "Solvothermal")])))
      = ⟨[⟨"f.md_B", [("synthesis_method", .str "Solvothermal"), ("mof_name", .str "B")]⟩],
         Option.none⟩ :=
  ⟨rfl, rfl⟩

/-- C2 amended.  Per-candidate isolation holds for the two skip conditions
the loop implements — empty experimental_text, and a Stage-2 response that
parsed to None or to a falsy value — in either implementation of the loop
(service and worker differ only in the builders passed in): the candidate
is skipped and processing continues with the next candidate unchanged.  A
Stage-2 completion-call failure, however, escapes the loop and aborts all
remaining candidates of the document. -/
theorem C2_amended_per_candidate_isolation
    (defName : Nat → String) (mkUid : String → String)
    (ext : Nat → Except String (Option PyVal)) (i : Nat)
    (kvs : List (String × PyVal)) (rest : List PyVal) :
    (pyTruthy (dictGetD kvs "experimental_text" PyVal.none) = false →
      processSyntheses defName mkUid ext i (.dict kvs :: rest)
        = processSyntheses defName mkUid ext (i + 1) rest)
    ∧ (∀ name r, dictGetD kvs "mof_name" (.str (defName i)) = .str name →
        pyTruthy (dictGetD kvs "experimental_text" PyVal.none) = true →
        ext i = .ok r → pyTruthyOpt r = false →
        processSyntheses defName mkUid ext i (.dict kvs :: rest)
          = processSyntheses defName mkUid ext (i + 1) rest)
    ∧ (∀ name e, dictGetD kvs "mof_name" (.str (defName i)) = .str name →
        pyTruthy (dictGetD kvs "experimental_text" PyVal.none) = true →
        ext i = .error e →
        processSyntheses defName mkUid ext i (.dict kvs :: rest) = ([], some e)) :=
  ⟨fun h => processSyntheses_skip_empty_text defName mkUid ext i kvs rest h,
   fun name r hname htext hext hr =>
     processSyntheses_skip_falsy defName mkUid ext i kvs rest name r hname htext hext hr,
   fun name e hname htext hext =>
     processSyntheses_abort defName mkUid ext i kvs rest name e hname htext hext⟩

/-- C2 witness: the parse-failure skip case at a concrete candidate. -/
theorem C2_witness :
    processSyntheses defaultNameService (mkUidService "f.md") (fun _ => .ok Option.none) 0
        [.dict [("mof_name", .str "A"), ("experimental_text", .str "tA")]]
      = processSyntheses defaultNameService (mkUidService "f.md") (fun _ => .ok Option.none)
          1 [] :=
  (C2_amended_per_candidate_isolation defaultNameService (mkUidService "f.md")
      (fun _ => .ok Option.none) 0
      [("mof_name", .str "A"), ("experimental_text", .str "tA")] []).2.1
    "A" Option.none rfl rfl rfl rfl

/-- C3 counterexample.  In the worker, an unparseable Stage-1 response is
not surfaced as an ingestion failure: the task result (return value, log,
stored entries) is identical to that of a document whose identification
legitimately returned an empty syntheses list, namely the non-error message
"No syntheses found in 'f.md'.".  In the API service both runs return the
same entry count 0, so the return value does not distinguish them either. -/
theorem C3_counterexample :
    process_paper_task "f.md" (.ok Option.none) (fun _ => .ok Option.none) []
      = process_paper_task "f.md" (.ok (some (.dict [("syntheses", .list [])])))
          (fun _ => .ok Option.none) []
    ∧ process_paper_task "f.md" (.ok Option.none) (fun _ => .ok Option.none) []
      = ⟨[], [], .ok ("No syntheses found in " ++ sq ++ "f.md" ++ sq ++ ".")⟩
    ∧ (process_and_store_paper "f.md" (.ok Option.none) (fun _ => .ok Option.none)).stored.length
      = (process_and_store_paper "f.md" (.ok (some (.dict [("syntheses", .list [])])))
          (fun _ => .ok Option.none)).stored.length :=
  ⟨rfl, rfl, rfl⟩

/-- C3 amended.  A Stage-1 completion-call failure does propagate out of
the worker task as an ingestion failure, but an unparseable Stage-1
response is treated by the worker exactly like an empty syntheses list
(non-error message, no log update); in the API service both failure kinds
are caught by the per-document handler — internally a ValueError is raised
for the parse failure — and the method returns zero entries, which is the
same return value a legitimately empty document produces. -/
theorem C3_amended_stage1_failure_handling
    (filename : String) (ext : Nat → Except String (Option PyVal))
    (log : List String) (e : String) :
    process_paper_task filename (.error e) ext log = ⟨log, [], .error e⟩
    ∧ process_paper_task filename (.ok Option.none) ext log
        = process_paper_task filename (.ok (some (.dict [("syntheses", .list [])]))) ext log
    ∧ process_paper_task filename (.ok Option.none) ext log
        = ⟨log, [], .ok ("No syntheses found in " ++ sq ++ filename ++ sq ++ ".")⟩
    ∧ process_and_store_paper filename (.error e) ext = ⟨[], some e⟩
    ∧ process_and_store_paper filename (.ok Option.none) ext
        = ⟨[], some "Failed to parse the Stage 1 (identification) response from LLM."⟩
    ∧ (process_and_store_paper filename (.ok Option.none) ext).stored.length
        = (process_and_store_paper filename
            (.ok (some (.dict [("syntheses", .list [])]))) ext).stored.length :=
  ⟨rfl, rfl, rfl, rfl, rfl, rfl⟩

/-- C4 counterexample.  A null value in a list-typed field does not become
the empty string: flatten maps it to the string "None" like any null.  And
the batch-script variant of flatten does not stringify booleans: it passes
them through unchanged. -/
theorem C4_counterexample :
    flatten_metadata [("solvent", PyVal.none)] = [("solvent", .str "None")]
    ∧ flatten_metadata [("solvent", PyVal.none)] ≠ [("solvent", .str "")]
    ∧ flatten_metadata_script [("in_stock", .bool true)] = [("in_stock", .bool true)]
    ∧ flatten_metadata_script [("in_stock", .bool true)] ≠ [("in_stock", .str "True")] := by
  refine ⟨rfl, ?_, rfl, ?_⟩
  · intro h
    rw [show flatten_metadata [("solvent", PyVal.none)] = [("solvent", .str "None")] from rfl]
      at h
    injection h with h1 _
    injection h1 with _ hv
    injection hv with hs
    exact absurd hs (by decide)
  · intro h
    rw [show flatten_metadata_script [("in_stock", .bool true)]
          = [("in_stock", .bool true)] from rfl] at h
    injection h with h1 _
    injection h1 with _ hv
    exact PyVal.noConfusion hv

/-- C4 amended.  flatten inlines nested-object sub-keys as key_subkey,
joins list values with ", " (an actual empty list becoming the empty
string), passes primitives through, sanitizes null to the string "None" —
including a null standing where a list is expected, which therefore becomes
"None", not the empty string — and stringifies booleans in the service and
worker variant while the batch-script variant keeps booleans unchanged; the
spec's worked example holds, every produced value is of a storable
primitive type, and both variants are idempotent on every input. -/
theorem C4_amended_flatten_behaviour :
    flatten_metadata
        [("metal_source", .dict [("formula", .str "Cu(NO3)2"), ("molar_amount", PyVal.none)]),
         ("solvent", .list [.str "DMF", .str "H2O"]),
         ("yield", PyVal.none)]
      = [("metal_source_formula", .str "Cu(NO3)2"),
         ("metal_source_molar_amount", .str "None"),
         ("solvent", .str "DMF, H2O"),
         ("yield", .str "None")]
    ∧ (∀ k sk sv, flatten_metadata [(k, .dict [(sk, sv)])]
        = [(k ++ "_" ++ sk, sanitizeVal sv)])
    ∧ (∀ k xs, flatten_metadata [(k, .list xs)] = [(k, .str (joinPyStr xs))])
    ∧ (∀ k, flatten_metadata [(k, .list [])] = [(k, .str "")])
    ∧ (∀ k s, flatten_metadata [(k, .str s)] = [(k, .str s)])
    ∧ (∀ k n, flatten_metadata [(k, .int n)] = [(k, .int n)])
    ∧ (∀ k, flatten_metadata [(k, PyVal.none)] = [(k, .str "None")])
    ∧ (∀ k b, flatten_metadata [(k, .bool b)] = [(k, .str (pyStr (.bool b)))])
    ∧ (∀ k b, flatten_metadata_script [(k, .bool b)] = [(k, .bool b)])
    ∧ (∀ d, (flatten_metadata d).all (fun p => isSanitizedVal p.2) = true)
    ∧ (∀ d, (flatten_metadata_script d).all (fun p => isSanitizedValScript p.2) = true)
    ∧ (∀ d, flatten_metadata (flatten_metadata d) = flatten_metadata d)
    ∧ (∀ d, flatten_metadata_script (flatten_metadata_script d) = flatten_metadata_script d) :=
  ⟨rfl, fun _ _ _ => rfl, fun _ _ => rfl, fun _ => rfl, fun _ _ => rfl, fun _ _ => rfl,
   fun _ => rfl, fun _ _ => rfl, fun _ _ => rfl,
   flatten_metadata_total, flatten_metadata_script_total,
   flatten_metadata_idem, flatten_metadata_script_idem⟩

/-- C5.  The feasibility gate fails open: whenever its completion call
raises, or the call succeeds but its parsed response is not a JSON object
(so result.get raises inside the same try block), check returns
is_plausible True with the fixed diagnostic reasoning string, and — being a
total function into a pair in this model — never raises past its
boundary. -/
theorem C5_feasibility_fails_open :
    (∀ e, check_feasibility (.error e)
        = (.bool true, .str "Feasibility check failed, proceeding with caution."))
    ∧ check_feasibility (.ok PyVal.none)
        = (.bool true, .str "Feasibility check failed, proceeding with caution.")
    ∧ (∀ b, check_feasibility (.ok (.bool b))
        = (.bool true, .str "Feasibility check failed, proceeding with caution."))
    ∧ (∀ n, check_feasibility (.ok (.int n))
        = (.bool true, .str "Feasibility check failed, proceeding with caution."))
    ∧ (∀ s, check_feasibility (.ok (.str s))
        = (.bool true, .str "Feasibility check failed, proceeding with caution."))
    ∧ (∀ xs, check_feasibility (.ok (.list xs))
        = (.bool true, .str "Feasibility check failed, proceeding with caution.")) :=
  ⟨fun _ => rfl, rfl, fun _ => rfl, fun _ => rfl, fun _ => rfl, fun _ => rfl⟩

/-- C6.  In every successfully returned ProtocolAnswer, generation_mode is
"LLM_FALLBACK" with empty sources exactly when retrieval returned no
documents; with at least one retrieved document the mode is "RAG_BASED" and
sources is exactly the retrieved metadata (non-empty whenever the store
returns parallel document/metadata lists); hence sources is non-empty only
in "RAG_BASED" mode. -/
theorem C6_generation_mode_sources
    (documents : List String) (metadatas : List PyVal)
    (genResp : Except String PyVal) (ans : ProtocolAnswer)
    (hok : generate_synthesis_protocol documents metadatas genResp = .ok ans) :
    ((ans.generation_mode = "LLM_FALLBACK" ∧ ans.sources = []) ↔ documents = [])
    ∧ (documents ≠ [] → ans.generation_mode = "RAG_BASED" ∧ ans.sources = metadatas)
    ∧ (documents ≠ [] → documents.length = metadatas.length → ans.sources ≠ [])
    ∧ (ans.sources ≠ [] → ans.generation_mode = "RAG_BASED") := by
  cases genResp with
  | error e => exact absurd hok (by simp [generate_synthesis_protocol])
  | ok v =>
    cases v with
    | dict kvs =>
      cases documents with
      | nil =>
        simp only [generate_synthesis_protocol, List.isEmpty_nil, if_true] at hok
        cases hok
        exact ⟨by simp, by simp, by simp, by simp [ProtocolAnswer.sources]⟩
      | cons d ds =>
        simp only [generate_synthesis_protocol, List.isEmpty_cons, Bool.false_eq_true,
          if_false] at hok
        cases hok
        refine ⟨?_, fun _ => ⟨rfl, rfl⟩, ?_, fun _ => rfl⟩
        · constructor
          · rintro ⟨h1, _⟩
            simp at h1
          · intro hnil
            exact absurd hnil (List.cons_ne_nil d ds)
        · intro _ hlen
          cases metadatas with
          | nil => simp at hlen
          | cons m ms => exact List.cons_ne_nil m ms
    | none => exact absurd hok (by simp [generate_synthesis_protocol])
    | bool b => exact absurd hok (by simp [generate_synthesis_protocol])
    | int n => exact absurd hok (by simp [generate_synthesis_protocol])
    | str s => exact absurd hok (by simp [generate_synthesis_protocol])
    | list xs => exact absurd hok (by simp [generate_synthesis_protocol])

/-- C6 witness: a one-document retrieval yields RAG_BASED with the
retrieved metadata as sources. -/
theorem C6_witness :
    (⟨"RAG_BASED", .dict [], [.str "m"]⟩ : ProtocolAnswer).generation_mode = "RAG_BASED"
    ∧ (⟨"RAG_BASED", .dict [], [.str "m"]⟩ : ProtocolAnswer).sources = [.str "m"] :=
  (C6_generation_mode_sources ["doc"] [.str "m"] (.ok (.dict []))
      ⟨"RAG_BASED", .dict [], [.str "m"]⟩ rfl).2.1 (List.cons_ne_nil "doc" [])

/-- C7.  Every query run starts with the feasibility call, and whenever the
gate's verdict is falsy the query raises the ValueError carrying the
gate's reasoning and performs no embedding, retrieval or generation call:
its trace is exactly the single feasibility call. -/
theorem C7_feasibility_short_circuit (o : RagOracle)
    (h : pyTruthy (check_feasibility o.feasResp).1 = false) :
    (∀ o' : RagOracle, (query_synthesis_method o').2.head? = some RagEvent.feasibilityCall)
    ∧ query_synthesis_method o
        = (.error (.rejected ("The request is considered chemically implausible. Reason: "
            ++ pyStr (check_feasibility o.feasResp).2)), [.feasibilityCall])
    ∧ RagEvent.embedCall ∉ (query_synthesis_method o).2
    ∧ RagEvent.retrieveCall ∉ (query_synthesis_method o).2
    ∧ RagEvent.generateCall ∉ (query_synthesis_method o).2 := by
  have hq : query_synthesis_method o
      = (.error (.rejected ("The request is considered chemically implausible. Reason: "
          ++ pyStr (check_feasibility o.feasResp).2)), [.feasibilityCall]) := by
    simp [query_synthesis_method, h]
  refine ⟨?_, hq, ?_, ?_, ?_⟩
  · intro o'
    by_cases hc : pyTruthy (check_feasibility o'.feasResp).1 = true
    · simp only [query_synthesis_method, hc, if_true]
      cases generate_synthesis_protocol o'.documents o'.metadatas o'.genResp <;> rfl
    · rw [Bool.not_eq_true] at hc
      simp [query_synthesis_method, hc]
  · rw [hq]; simp
  · rw [hq]; simp
  · rw [hq]; simp

/-- C7 witness: a concrete implausible verdict short-circuits. -/
theorem C7_witness :
    query_synthesis_method
        ⟨.ok (.dict [("is_plausible", .bool false), ("reasoning", .str "bad pair")]),
         ["d"], [.str "m"], .ok (.dict [])⟩
      = (.error (.rejected
            ("The request is considered chemically implausible. Reason: "
              ++ pyStr (check_feasibility (.ok (.dict [("is_plausible", .bool false),
                  ("reasoning", .str "bad pair")]))).2)),
         [.feasibilityCall]) :=
  (C7_feasibility_short_circuit
      ⟨.ok (.dict [("is_plausible", .bool false), ("reasoning", .str "bad pair")]),
       ["d"], [.str "m"], .ok (.dict [])⟩ rfl).2.1

/-- The probe string on which both parsing and repair fail, modelling
json.loads and codecs.decode behaviour on the raw text
(in Python notation) "\x7b\"a\": \"\\uZZZZ\"\x7d": json.loads raises
JSONDecodeError (invalid \uXXXX escape) and
codecs.decode(-, "unicode_escape") raises UnicodeDecodeError
(truncated \uXXXX escape), so the except-block of robust_json_loads
aborts before its second json.loads call. -/
def probeRaw : String := "\x7b\"a\": \"\\uZZZZ\"\x7d"

/-- json.loads modelled on the probe string (and trivially elsewhere). -/
def probeParse (s : String) : Except String PyVal :=
  if s = probeRaw then .error "Invalid \\uXXXX escape: line 1 column 7 (char 6)"
  else .ok (.dict [])

/-- codecs.decode(-, "unicode_escape") modelled on the probe string. -/
def probeRepair (s : String) : Except String String :=
  if s = probeRaw then .error "unicodeescape codec cannot decode: truncated \\uXXXX escape"
  else .ok s

/-- C8 counterexample.  On an input whose direct parse fails and whose
escape-sequence repair itself raises, robust_json_loads performs only ONE
parse attempt — there is no retry — while still returning the typed None
failure; this refutes "on failure it applies exactly one repair and retries
exactly once". -/
theorem C8_counterexample :
    probeParse probeRaw = .error "Invalid \\uXXXX escape: line 1 column 7 (char 6)"
    ∧ robust_json_loads probeParse probeRepair probeRaw = Option.none
    ∧ countParseAttempts (robust_json_loads_tr probeParse probeRepair probeRaw).2 = 1 :=
  ⟨rfl, rfl, rfl⟩

/-- C8 amended.  parse attempts a direct parse first and returns its value
on success with one attempt; on failure it applies the single repair
strategy and, when the repair succeeds, retries exactly once, returning the
retried value or the typed None failure; when the repair itself fails no
retry occurs and the typed None failure is returned after a single parse
attempt; in every case at most two parse attempts are made, and the
function is total — every caller receives either a structured object or
None. -/
theorem C8_amended_repair_parse
    (parse : String → Except String PyVal) (repair : String → Except String String)
    (s : String) :
    countParseAttempts (robust_json_loads_tr parse repair s).2 ≤ 2
    ∧ (∀ v, parse s = .ok v →
        robust_json_loads parse repair s = some v
        ∧ (robust_json_loads_tr parse repair s).2 = [.parseAttempt s])
    ∧ (∀ e r v, parse s = .error e → repair s = .ok r → parse r = .ok v →
        robust_json_loads parse repair s = some v
        ∧ countParseAttempts (robust_json_loads_tr parse repair s).2 = 2)
    ∧ (∀ e r e2, parse s = .error e → repair s = .ok r → parse r = .error e2 →
        robust_json_loads parse repair s = Option.none
        ∧ countParseAttempts (robust_json_loads_tr parse repair s).2 = 2)
    ∧ (∀ e e2, parse s = .error e → repair s = .error e2 →
        robust_json_loads parse repair s = Option.none
        ∧ countParseAttempts (robust_json_loads_tr parse repair s).2 = 1) := by
  refine ⟨?_, ?_, ?_, ?_, ?_⟩
  · unfold robust_json_loads_tr
    cases hp : parse s with
    | ok v => simp [countParseAttempts]
    | error e =>
      cases hr : repair s with
      | error e2 => simp [countParseAttempts, hr]
      | ok r =>
        cases hpr : parse r with
        | ok v => simp [countParseAttempts, hr, hpr]
        | error e2 => simp [countParseAttempts, hr, hpr]
  · intro v hp
    simp [robust_json_loads, robust_json_loads_tr, hp]
  · intro e r v hp hr hpr
    simp [robust_json_loads, robust_json_loads_tr, hp, hr, hpr, countParseAttempts]
  · intro e r e2 hp hr hpr
    simp [robust_json_loads, robust_json_loads_tr, hp, hr, hpr, countParseAttempts]
  · intro e e2 hp hr
    simp [robust_json_loads, robust_json_loads_tr, hp, hr, countParseAttempts]

/-- C8 witness: a succeeding direct parse returns after one attempt. -/
theorem C8_witness :
    robust_json_loads (fun _ => .ok (.dict [])) (fun s => .ok s) "x" = some (.dict [])
    ∧ (robust_json_loads_tr (fun _ => .ok (.dict [])) (fun s => .ok s) "x").2
        = [.parseAttempt "x"] :=
  (C8_amended_repair_parse (fun _ => .ok (.dict [])) (fun s => .ok s) "x").2.1
    (.dict []) rfl

/-- C9.  A successfully parsed but falsy LLM response is handled exactly
like a parse failure: a Stage-2 response parsing to the empty object skips
just that candidate and processing continues with the next one; a Stage-1
response parsing to the empty object makes the worker behave identically to
a parse failure (which it treats as an empty syntheses list), and makes the
API service take the same ValueError path a parse failure takes. -/
theorem C9_falsy_parse_results
    (defName : Nat → String) (mkUid : String → String)
    (ext : Nat → Except String (Option PyVal)) (i : Nat)
    (kvs : List (String × PyVal)) (rest : List PyVal) (name : String)
    (hname : dictGetD kvs "mof_name" (.str (defName i)) = .str name)
    (htext : pyTruthy (dictGetD kvs "experimental_text" PyVal.none) = true)
    (hext : ext i = .ok (some (.dict []))) :
    processSyntheses defName mkUid ext i (.dict kvs :: rest)
      = processSyntheses defName mkUid ext (i + 1) rest
    ∧ (∀ filename ext2 log,
        process_paper_task filename (.ok (some (.dict []))) ext2 log
          = process_paper_task filename (.ok Option.none) ext2 log)
    ∧ (∀ filename ext2,
        process_and_store_paper filename (.ok (some (.dict []))) ext2
          = process_and_store_paper filename (.ok Option.none) ext2
        ∧ (process_and_store_paper filename (.ok (some (.dict []))) ext2).caught
            = some "Failed to parse the Stage 1 (identification) response from LLM.") :=
  ⟨processSyntheses_skip_falsy defName mkUid ext i kvs rest name _ hname htext hext rfl,
   fun _ _ _ => rfl, fun _ _ => ⟨rfl, rfl⟩⟩

/-- C9 witness: a concrete candidate whose Stage-2 response is the empty
object is skipped and the loop continues. -/
theorem C9_witness :
    processSyntheses defaultNameService (mkUidService "f.md")
        (fun _ => .ok (some (.dict []))) 0
        [.dict [("mof_name", .str "A"), ("experimental_text", .str "t")]]
      = processSyntheses defaultNameService (mkUidService "f.md")
          (fun _ => .ok (some (.dict []))) 1 [] :=
  (C9_falsy_parse_results defaultNameService (mkUidService "f.md")
      (fun _ => .ok (some (.dict []))) 0
      [("mof_name", .str "A"), ("experimental_text", .str "t")] [] "A" rfl rfl rfl).1

/-- C10.  A parseable object response lacking "is_plausible" yields
is_plausible False — the request is then rejected with the ValueError the
query path raises, not the fail-open default — and a missing "reasoning"
key yields the string "No reasoning provided.". -/
theorem C10_missing_keys_defaults (kvs : List (String × PyVal)) :
    (List.lookup "is_plausible" kvs = Option.none →
      (check_feasibility (.ok (.dict kvs))).1 = .bool false
      ∧ ∀ documents metadatas genResp,
          query_synthesis_method ⟨.ok (.dict kvs), documents, metadatas, genResp⟩
            = (.error (.rejected
                ("The request is considered chemically implausible. Reason: "
                  ++ pyStr (check_feasibility (.ok (.dict kvs))).2)),
               [.feasibilityCall]))
    ∧ (List.lookup "reasoning" kvs = Option.none →
        (check_feasibility (.ok (.dict kvs))).2 = .str "No reasoning provided.") := by
  constructor
  · intro h
    have h1 : (check_feasibility (.ok (.dict kvs))).1 = .bool false := by
      show dictGetD kvs "is_plausible" (.bool false) = .bool false
      unfold dictGetD
      rw [h]
    refine ⟨h1, ?_⟩
    intro documents metadatas genResp
    have hfalse : pyTruthy (check_feasibility (Except.ok (PyVal.dict kvs))).1 = false := by
      rw [h1]
      rfl
    simp [query_synthesis_method, hfalse]
  · intro h
    show dictGetD kvs "reasoning" (.str "No reasoning provided.") = _
    unfold dictGetD
    rw [h]

/-- C10 witness: the empty object lacks both keys. -/
theorem C10_witness :
    (check_feasibility (.ok (.dict []))).1 = .bool false
    ∧ (check_feasibility (.ok (.dict []))).2 = .str "No reasoning provided." :=
  ⟨((C10_missing_keys_defaults []).1 rfl).1, (C10_missing_keys_defaults []).2 rfl⟩

end MOFAdvisor
